import Mathlib

/-!
Shallow embedding of the nice-react-flex style pipeline:
`normalizeProps` (src/services/shouldRenderIcon/normalizeProps.ts) and
`styleFlex` / `styleSpacing` / `getGapSize`
(src/services/styleFlex/styleFlex.ts).

The TypeScript types module (`../../types`) is not among the sources;
the value types below (GapSize as the integer scale 0..6, direction as
row / column, alignItems and justifyContent as plain strings, type as
padding / margin) are modelled from the spec (section 3), which is the
only authority for that missing file.  All function bodies are
translated from the TypeScript sources.
-/

/-- Breakpoint tags, ordered sm < md < lg. -/
inductive Breakpoint where
  | sm
  | md
  | lg
deriving DecidableEq

/-- Modelled from the spec: GapSize is the integer scale 0..6 (the types
module defining it is not among the sources). -/
abbrev GapSize := Fin 7

/-- Modelled from the spec: flex-direction values row / column. -/
inductive Direction where
  | row
  | column
deriving DecidableEq

/-- CSS text of a direction value. -/
def Direction.toCss : Direction → String
  | .row => "row"
  | .column => "column"

/-- Modelled from the spec: the `type` prop selects padding or margin. -/
inductive SpacingType where
  | padding
  | margin
deriving DecidableEq

/-- CSS property stem of a spacing type. -/
def SpacingType.toCss : SpacingType → String
  | .padding => "padding"
  | .margin => "margin"

/-- A per-breakpoint override table; a `none` field is an absent key. -/
structure BreakpointMap (T : Type) where
  sm : Option T := none
  md : Option T := none
  lg : Option T := none
deriving DecidableEq

/-- Look up the entry for a breakpoint (JS `m[breakpoint]`). -/
def BreakpointMap.get {T : Type} (m : BreakpointMap T) (bp : Breakpoint) : Option T :=
  match bp with
  | .sm => m.sm
  | .md => m.md
  | .lg => m.lg

/-- A raw responsive field: either a bare scalar or a breakpoint map
(the JS code discriminates by `typeof v === "object"`). -/
inductive FlexValue (T : Type) where
  | scalar (v : T)
  | map (m : BreakpointMap T)
deriving DecidableEq

/-- SpacingDefinition: optional all / axis / side spacing values. -/
structure SpacingDefinition where
  all : Option GapSize := none
  horizontal : Option GapSize := none
  vertical : Option GapSize := none
  top : Option GapSize := none
  right : Option GapSize := none
  bottom : Option GapSize := none
  left : Option GapSize := none
deriving DecidableEq

/-- Untyped model of a spacing object: a JS object may carry breakpoint
keys (sm / md / lg) and side keys at the same time, which is exactly the
shape ambiguity the normalizer resolves by key presence alone. -/
structure SpacingObj where
  sm : Option SpacingDefinition := none
  md : Option SpacingDefinition := none
  lg : Option SpacingDefinition := none
  all : Option GapSize := none
  horizontal : Option GapSize := none
  vertical : Option GapSize := none
  top : Option GapSize := none
  right : Option GapSize := none
  bottom : Option GapSize := none
  left : Option GapSize := none
deriving DecidableEq

/-- JS key-presence test `"sm" in s || "md" in s || "lg" in s`. -/
def SpacingObj.hasBreakpointKey (o : SpacingObj) : Bool :=
  o.sm.isSome || o.md.isSome || o.lg.isSome

/-- Reading a spacing object that carries no breakpoint keys as a
SpacingDefinition (the `props.spacing as SpacingDefinition` cast). -/
def SpacingObj.toDef (o : SpacingObj) : SpacingDefinition :=
  { all := o.all, horizontal := o.horizontal, vertical := o.vertical,
    top := o.top, right := o.right, bottom := o.bottom, left := o.left }

/-- Raw spacing prop: `GapSize | SpacingDefinition |
BreakpointMap<SpacingDefinition>`; the two object shapes share
SpacingObj because the source distinguishes them only at runtime. -/
inductive SpacingProp where
  | num (n : GapSize)
  | obj (o : SpacingObj)
deriving DecidableEq

/-- FlexProps: the prop record of the Flex component (fields per spec
section 3); an absent field is `none`. -/
structure FlexProps where
  gap : Option (FlexValue GapSize) := none
  direction : Option (FlexValue Direction) := none
  grow : Option (FlexValue Nat) := none
  alignItems : Option String := none
  justifyContent : Option String := none
  spacing : Option SpacingProp := none
  type : Option SpacingType := none
deriving DecidableEq

/-- One step of the BREAKPOINT_PROPS loop of normalizeProps: a defined
non-object value is replaced by `{ sm: value }`; an object is kept. -/
def normalizeValue {T : Type} : FlexValue T → FlexValue T
  | .scalar v => .map { sm := some v }
  | .map m => .map m

/-- Spacing branch of normalizeProps: number wraps to `{ sm: { all: n } }`,
an object without breakpoint keys wraps to `{ sm: <object> }`, an object
with at least one breakpoint key is left as-is. -/
def normalizeSpacing : SpacingProp → SpacingProp
  | .num n => .obj { sm := some { all := some n } }
  | .obj o =>
    if o.hasBreakpointKey then .obj o
    else .obj { sm := some o.toDef }

/-- normalizeProps from normalizeProps.ts: shallow copy, wrap bare
scalars of gap / direction / grow, classify spacing; all other fields
are carried over untouched. -/
def normalizeProps (p : FlexProps) : FlexProps :=
  { p with
    gap := p.gap.map normalizeValue
    direction := p.direction.map normalizeValue
    grow := p.grow.map normalizeValue
    spacing := p.spacing.map normalizeSpacing }

/-- Token part of getGapSize from styleFlex.ts on a defined size:
`size === 0 ? "0" : var token`. -/
def gapSizeToken (s : GapSize) : String :=
  if s = 0 then ("0") else ("var(--gap-size-" ++ toString s.val ++ ")")

/-- getGapSize from styleFlex.ts: undefined passes through, a defined
size renders via the zero-sentinel token rule. -/
def getGapSize (s : Option GapSize) : Option String :=
  s.map gapSizeToken

/-- JS `a ?? b` on optional gap sizes. -/
def fallback (a b : Option GapSize) : Option GapSize :=
  match a with
  | some v => some v
  | none => b

/-- One conditional push of styleSpacing: emits `<pre>-<side>: <token>;`
exactly when the resolved value is defined. -/
def sideDecl (pre side : String) (v : Option GapSize) : List String :=
  match v with
  | some s => [pre ++ "-" ++ side ++ ": " ++ gapSizeToken s ++ ";"]
  | none => []

/-- styleSpacing from styleFlex.ts, as the list of pushed declarations:
per-side priority `side ?? axis ?? all`, emission order top, right,
bottom, left. -/
def styleSpacingList (ty : SpacingType) (d : Option SpacingDefinition) : List String :=
  match d with
  | none => []
  | some d =>
    let pre := ty.toCss
    sideDecl pre ("top") (fallback d.top (fallback d.vertical d.all)) ++
    sideDecl pre ("right") (fallback d.right (fallback d.horizontal d.all)) ++
    sideDecl pre ("bottom") (fallback d.bottom (fallback d.vertical d.all)) ++
    sideDecl pre ("left") (fallback d.left (fallback d.horizontal d.all))

/-- JS `parts.join(newline)`. -/
def joinNl : List String → String
  | [] => ""
  | [s] => s
  | s :: rest => s ++ "\n" ++ joinNl rest

/-- styleSpacing: the joined string the JS function returns (empty when
the definition is absent, because the part list is then empty). -/
def styleSpacing (ty : SpacingType) (d : Option SpacingDefinition) : String :=
  joinNl (styleSpacingList ty d)

/-- Per-field extraction of styleFlex: an object contributes its entry
at the breakpoint, a bare scalar only at sm. -/
def flexValueAt {T : Type} (bp : Breakpoint) : Option (FlexValue T) → Option T
  | some (.map m) => m.get bp
  | some (.scalar v) => if bp = .sm then some v else none
  | none => none

/-- Extraction for the scalar-only fields alignItems / justifyContent
(per the spec these two stay scalar, so only the sm branch can fire). -/
def scalarAt (bp : Breakpoint) (v : Option String) : Option String :=
  if bp = .sm then v else none

/-- Spacing extraction of styleFlex: engages only when the object
carries at least one breakpoint key, then reads the entry at the
breakpoint; any other shape contributes nothing. -/
def spacingAt (bp : Breakpoint) (p : FlexProps) : Option SpacingDefinition :=
  match p.spacing with
  | some (.obj o) =>
    if o.hasBreakpointKey then
      match bp with
      | .sm => o.sm
      | .md => o.md
      | .lg => o.lg
    else none
  | _ => none

/-- Declarations pushed by the base-display block of styleFlex. -/
def displayChunk (bp : Breakpoint) : List String :=
  if bp = .sm then ["display: flex;"] else []

/-- Declarations pushed by the flex-direction block (a direction string
is never empty, so the JS truthiness test is definedness). -/
def directionChunk (bp : Breakpoint) (p : FlexProps) : List String :=
  match flexValueAt bp p.direction with
  | some d => ["flex-direction: " ++ d.toCss ++ ";"]
  | none => []

/-- Declarations pushed by the align-items block; the JS truthiness test
skips the empty string. -/
def alignChunk (bp : Breakpoint) (p : FlexProps) : List String :=
  match scalarAt bp p.alignItems with
  | some a => if a = "" then [] else ["align-items: " ++ a ++ ";"]
  | none => []

/-- Declarations pushed by the justify-content block; the JS truthiness
test skips the empty string. -/
def justifyChunk (bp : Breakpoint) (p : FlexProps) : List String :=
  match scalarAt bp p.justifyContent with
  | some j => if j = "" then [] else ["justify-content: " ++ j ++ ";"]
  | none => []

/-- Declarations pushed by the grow block: flex-grow paired with the
unconditional flex-basis reset (`grow !== undefined`, so 0 counts). -/
def growChunk (bp : Breakpoint) (p : FlexProps) : List String :=
  match flexValueAt bp p.grow with
  | some g => ["flex-grow: " ++ toString g ++ ";", "flex-basis: 0;"]
  | none => []

/-- Declarations pushed by the gap block: the source interpolates the
raw number into the var token here and does not call getGapSize. -/
def gapChunk (bp : Breakpoint) (p : FlexProps) : List String :=
  match flexValueAt bp p.gap with
  | some g => ["gap: var(--gap-size-" ++ toString g.val ++ ");"]
  | none => []

/-- Declarations pushed by the spacing block: the joined styleSpacing
output is pushed as one entry when non-empty; `props.type || "padding"`
defaults the kind (both kind strings are truthy). -/
def spacingChunk (bp : Breakpoint) (p : FlexProps) : List String :=
  match spacingAt bp p with
  | some d =>
    let s := styleSpacing (p.type.getD SpacingType.padding) (some d)
    if s = "" then [] else [s]
  | none => []

/-- styleFlex from styleFlex.ts as the sequence of pushed declarations,
in the fixed source order. -/
def styleFlexList (bp : Breakpoint) (p : FlexProps) : List String :=
  displayChunk bp ++ directionChunk bp p ++ alignChunk bp p ++
  justifyChunk bp p ++ growChunk bp p ++ gapChunk bp p ++ spacingChunk bp p

/-- styleFlex: the joined string the JS function returns. -/
def styleFlex (bp : Breakpoint) (p : FlexProps) : String :=
  joinNl (styleFlexList bp p)

/-- Sides of the box, used by the spec-side description of the spacing
sub-resolver (spec section 4.3). -/
inductive Side where
  | top
  | right
  | bottom
  | left
deriving DecidableEq

/-- CSS name of a side. -/
def Side.name : Side → String
  | .top => "top"
  | .right => "right"
  | .bottom => "bottom"
  | .left => "left"

/-- Modelled from the spec words: the axis value governing a side
(vertical for top and bottom, horizontal for right and left). -/
def Side.axisValue (d : SpacingDefinition) : Side → Option GapSize
  | .top => d.vertical
  | .bottom => d.vertical
  | .right => d.horizontal
  | .left => d.horizontal

/-- Modelled from the spec words: the explicit per-side value. -/
def Side.explicitValue (d : SpacingDefinition) : Side → Option GapSize
  | .top => d.top
  | .right => d.right
  | .bottom => d.bottom
  | .left => d.left

/-- Modelled from the spec words: side = explicit ?? axis ?? all. -/
def resolvedSide (d : SpacingDefinition) (s : Side) : Option GapSize :=
  fallback (s.explicitValue d) (fallback (s.axisValue d) d.all)

/-- Modelled from the spec words (section 4.3): for each side in fixed
order top, right, bottom, left, emit the declaration when the side
resolves, skipping unresolved sides. -/
def spacingSpecList (ty : SpacingType) (d : SpacingDefinition) : List String :=
  [Side.top, Side.right, Side.bottom, Side.left].filterMap (fun s =>
    (resolvedSide d s).map (fun v => ty.toCss ++ "-" ++ s.name ++ ": " ++ gapSizeToken v ++ ";"))

/-- Claim C1 (code-bug evidence): with gap 0 at sm the resolver emits
the token `gap: var(--gap-size-0);` rather than the literal `gap: 0;`
the spec claims, even though the in-file helper getGapSize maps 0 to
the literal; a nonzero size renders as the named token as claimed. -/
theorem claim_C1_gap_zero_sentinel :
    styleFlex .sm { gap := some (.map { sm := some 0 }) } =
      "display: flex;\ngap: var(--gap-size-0);" ∧
    getGapSize (some 0) = some ("0") ∧
    styleFlex .sm { gap := some (.map { sm := some 3 }) } =
      "display: flex;\ngap: var(--gap-size-3);" :=
  ⟨rfl, rfl, rfl⟩

/-- Claim C2 counterexample: on the given scenario the resolver output
is not the claimed string, which lists padding-left before
padding-right. -/
theorem claim_C2_counterexample :
    ((styleFlex .md (normalizeProps
        { direction := some (.map { sm := some .column, md := some .row }),
          spacing := some (.obj { md := some { horizontal := some 2 } }) })) ==
      "flex-direction: row;\npadding-left: var(--gap-size-2);\npadding-right: var(--gap-size-2);") = false := by
  decide

/-- Claim C2 amended: the same scenario yields exactly the three
declarations with the two padding declarations in the emission order of
the code, padding-right before padding-left. -/
theorem claim_C2_amended :
    styleFlex .md (normalizeProps
        { direction := some (.map { sm := some .column, md := some .row }),
          spacing := some (.obj { md := some { horizontal := some 2 } }) }) =
      "flex-direction: row;\npadding-right: var(--gap-size-2);\npadding-left: var(--gap-size-2);" := by
  rfl

/-- Claim C10: on the empty prop record, md and lg resolve to exactly
the empty string and sm resolves to exactly the display declaration. -/
theorem claim_C10_empty_props :
    styleFlex .md ({} : FlexProps) = "" ∧
    styleFlex .lg ({} : FlexProps) = "" ∧
    styleFlex .sm ({} : FlexProps) = "display: flex;" :=
  ⟨rfl, rfl, rfl⟩

/-- Claim C3: the spacing sub-resolver agrees with the spec description
(per-side priority side ?? axis ?? all, fixed emission order top, right,
bottom, left, unresolved sides skipped), and the spec example yields
top=3, right=2, bottom=1, left=2 in that order. -/
theorem claim_C3_spacing_priority_order :
    (∀ (ty : SpacingType) (d : SpacingDefinition),
      styleSpacingList ty (some d) = spacingSpecList ty d) ∧
    styleSpacing .padding (some { all := some 1, horizontal := some 2, top := some 3 }) =
      "padding-top: var(--gap-size-3);\npadding-right: var(--gap-size-2);\npadding-bottom: var(--gap-size-1);\npadding-left: var(--gap-size-2);" := by
  constructor
  · intro ty d
    obtain ⟨al, ho, ve, tp, ri, bo, lf⟩ := d
    cases tp <;> cases ve <;> cases ri <;> cases ho <;> cases bo <;> cases lf <;>
      cases al <;> rfl
  · rfl

/-- normalizeValue is idempotent. -/
theorem normalizeValue_idem {T : Type} (v : FlexValue T) :
    normalizeValue (normalizeValue v) = normalizeValue v := by
  cases v <;> rfl

/-- normalizeSpacing is idempotent: both wrap results carry an sm key. -/
theorem normalizeSpacing_idem (s : SpacingProp) :
    normalizeSpacing (normalizeSpacing s) = normalizeSpacing s := by
  cases s with
  | num n => rfl
  | obj o =>
    obtain ⟨osm, omd, olg, a1, a2, a3, a4, a5, a6, a7⟩ := o
    cases osm <;> cases omd <;> cases olg <;> rfl

/-- Claim C5: normalizeProps is idempotent. -/
theorem claim_C5_normalize_idempotent (p : FlexProps) :
    normalizeProps (normalizeProps p) = normalizeProps p := by
  have hv : ∀ {T : Type} (o : Option (FlexValue T)),
      (o.map normalizeValue).map normalizeValue = o.map normalizeValue := by
    intro T o; cases o <;> simp [normalizeValue_idem]
  have hs : ∀ o : Option SpacingProp,
      (o.map normalizeSpacing).map normalizeSpacing = o.map normalizeSpacing := by
    intro o; cases o <;> simp [normalizeSpacing_idem]
  obtain ⟨g, d, gr, a, j, sp, ty⟩ := p
  simp [normalizeProps, hv, hs]

/-- Claim C5 witness: the theorem applied at a concrete record. -/
theorem claim_C5_witness :
    normalizeProps (normalizeProps
      { gap := some (.scalar 2), spacing := some (.num 3) }) =
    normalizeProps { gap := some (.scalar 2), spacing := some (.num 3) } :=
  claim_C5_normalize_idempotent { gap := some (.scalar 2), spacing := some (.num 3) }

/-- Claim C9: normalizeProps is a pure record rewrite that preserves
every field other than gap, direction, grow, spacing, and keeps absent
fields absent. -/
theorem claim_C9_frame (p : FlexProps) :
    (normalizeProps p).alignItems = p.alignItems ∧
    (normalizeProps p).justifyContent = p.justifyContent ∧
    (normalizeProps p).type = p.type ∧
    (p.gap = none → (normalizeProps p).gap = none) ∧
    (p.direction = none → (normalizeProps p).direction = none) ∧
    (p.grow = none → (normalizeProps p).grow = none) ∧
    (p.spacing = none → (normalizeProps p).spacing = none) := by
  refine ⟨rfl, rfl, rfl, ?_, ?_, ?_, ?_⟩ <;>
    intro h <;> simp [normalizeProps, h]

/-- Claim C9 witness: the theorem applied at a concrete record, with the
absence hypotheses discharged. -/
theorem claim_C9_witness :
    (normalizeProps { alignItems := some ("center") }).alignItems =
      ({ alignItems := some ("center") } : FlexProps).alignItems ∧
    (normalizeProps { alignItems := some ("center") }).gap = none ∧
    (normalizeProps { alignItems := some ("center") }).spacing = none :=
  ⟨(claim_C9_frame { alignItems := some ("center") }).1,
   (claim_C9_frame { alignItems := some ("center") }).2.2.2.1 rfl,
   (claim_C9_frame { alignItems := some ("center") }).2.2.2.2.2.2 rfl⟩

/-- Claim C4: after normalizeProps, each present field among gap,
direction, grow is in breakpoint-map form, a present spacing field is an
object carrying at least one breakpoint key, and a bare-scalar spacing
becomes an all-sides definition at the sm tier. -/
theorem claim_C4_normalized_shape (p : FlexProps) :
    (p.gap.isSome = true → ∃ m, (normalizeProps p).gap = some (.map m)) ∧
    (p.direction.isSome = true → ∃ m, (normalizeProps p).direction = some (.map m)) ∧
    (p.grow.isSome = true → ∃ m, (normalizeProps p).grow = some (.map m)) ∧
    (p.spacing.isSome = true →
      ∃ o, (normalizeProps p).spacing = some (.obj o) ∧ o.hasBreakpointKey = true) ∧
    (∀ n : GapSize,
      (normalizeProps { spacing := some (.num n) }).spacing =
        some (.obj { sm := some { all := some n } })) := by
  refine ⟨?_, ?_, ?_, ?_, fun n => rfl⟩
  · intro h
    cases hg : p.gap with
    | none => rw [hg] at h; cases h
    | some v =>
      cases v with
      | scalar x =>
        exact ⟨{ sm := some x }, by simp [normalizeProps, hg, normalizeValue]⟩
      | map m =>
        exact ⟨m, by simp [normalizeProps, hg, normalizeValue]⟩
  · intro h
    cases hg : p.direction with
    | none => rw [hg] at h; cases h
    | some v =>
      cases v with
      | scalar x =>
        exact ⟨{ sm := some x }, by simp [normalizeProps, hg, normalizeValue]⟩
      | map m =>
        exact ⟨m, by simp [normalizeProps, hg, normalizeValue]⟩
  · intro h
    cases hg : p.grow with
    | none => rw [hg] at h; cases h
    | some v =>
      cases v with
      | scalar x =>
        exact ⟨{ sm := some x }, by simp [normalizeProps, hg, normalizeValue]⟩
      | map m =>
        exact ⟨m, by simp [normalizeProps, hg, normalizeValue]⟩
  · intro h
    cases hg : p.spacing with
    | none => rw [hg] at h; cases h
    | some s =>
      cases s with
      | num n =>
        exact ⟨{ sm := some { all := some n } },
          by simp [normalizeProps, hg, normalizeSpacing], rfl⟩
      | obj o =>
        cases hk : o.hasBreakpointKey with
        | true =>
          exact ⟨o, by simp [normalizeProps, hg, normalizeSpacing, hk], hk⟩
        | false =>
          exact ⟨{ sm := some o.toDef },
            by simp [normalizeProps, hg, normalizeSpacing, hk], rfl⟩

/-- Claim C4 witness: the theorem applied at a record carrying all four
fields as bare scalars, with the presence hypotheses discharged. -/
theorem claim_C4_witness :
    (∃ m, (normalizeProps { gap := some (.scalar 2), grow := some (.scalar 1), spacing := some (.num 2) }).gap = some (.map m)) ∧
    (∃ o, (normalizeProps { gap := some (.scalar 2), grow := some (.scalar 1), spacing := some (.num 2) }).spacing = some (.obj o) ∧
      o.hasBreakpointKey = true) :=
  ⟨(claim_C4_normalized_shape { gap := some (.scalar 2), grow := some (.scalar 1), spacing := some (.num 2) }).1 rfl,
   (claim_C4_normalized_shape { gap := some (.scalar 2), grow := some (.scalar 1), spacing := some (.num 2) }).2.2.2.1 rfl⟩

/-- Claim C8: the spacing classification is a key-presence test: a
number wraps to an all-sides definition at sm, an object with none of
the keys sm, md, lg wraps under sm, and an object with at least one of
those keys is left entirely unchanged, whatever other fields it has. -/
theorem claim_C8_spacing_classification (p : FlexProps) (o : SpacingObj) (n : GapSize) :
    ((normalizeProps { p with spacing := some (.num n) }).spacing =
      some (.obj { sm := some { all := some n } })) ∧
    (o.hasBreakpointKey = false →
      (normalizeProps { p with spacing := some (.obj o) }).spacing =
        some (.obj { sm := some o.toDef })) ∧
    (o.hasBreakpointKey = true →
      (normalizeProps { p with spacing := some (.obj o) }).spacing =
        some (.obj o)) := by
  refine ⟨rfl, ?_, ?_⟩ <;> intro h <;> simp [normalizeProps, normalizeSpacing, h]

/-- Claim C8 witness: an ambiguous object carrying both an sm key and an
all key is left entirely unchanged, no re-wrapping. -/
theorem claim_C8_witness :
    (normalizeProps ({ spacing := some (.obj { sm := some ({} : SpacingDefinition), all := some 3 }) } : FlexProps)).spacing =
      some (.obj { sm := some ({} : SpacingDefinition), all := some 3 }) :=
  (claim_C8_spacing_classification {} { sm := some ({} : SpacingDefinition), all := some 3 } 0).2.2 rfl

/-- No base renders the letter y as a digit character. -/
theorem digitChar_ne_y (n : Nat) : Nat.digitChar n ≠ 'y' := by
  rcases Nat.lt_or_ge n 16 with h16 | h16
  · interval_cases n <;> decide
  · have hstar : Nat.digitChar n = '*' := by
      unfold Nat.digitChar
      repeat rw [if_neg (by omega)]
    rw [hstar]
    decide

/-- Characters produced by Nat.toDigitsCore are digit characters or come
from the accumulator, so none of them is the letter y. -/
theorem toDigitsCore_ne_y (b : Nat) (fuel : Nat) :
    ∀ (n : Nat) (ds : List Char), (∀ c ∈ ds, c ≠ 'y') →
      ∀ c ∈ Nat.toDigitsCore b fuel n ds, c ≠ 'y' := by
  induction fuel with
  | zero =>
    intro n ds h c hc
    simp only [Nat.toDigitsCore] at hc
    exact h c hc
  | succ fuel ih =>
    intro n ds h c hc
    simp only [Nat.toDigitsCore] at hc
    by_cases hz : n / b = 0
    · rw [if_pos hz] at hc
      rcases List.mem_cons.mp hc with h1 | h1
      · exact h1 ▸ digitChar_ne_y (n % b)
      · exact h c h1
    · rw [if_neg hz] at hc
      refine ih (n / b) (Nat.digitChar (n % b) :: ds) ?_ c hc
      intro x hx
      rcases List.mem_cons.mp hx with h1 | h1
      · exact h1 ▸ digitChar_ne_y (n % b)
      · exact h x h1

/-- The decimal rendering of a natural number never contains y. -/
theorem natRepr_ne_y (n : Nat) : ∀ c ∈ (Nat.repr n).data, c ≠ 'y' := by
  have h : (Nat.repr n).data = Nat.toDigitsCore 10 (n + 1) n [] := rfl
  rw [h]
  exact toDigitsCore_ne_y 10 (n + 1) n [] (fun c hc => absurd hc (List.not_mem_nil c))

/-- True when no character of the string is the letter y; every string
the resolver can emit at md or lg satisfies it, while the banned
declaration display: flex; does not. -/
def avoidsY (s : String) : Bool :=
  s.data.all (fun c => c != 'y')

/-- Characterisation of avoidsY. -/
theorem avoidsY_iff {s : String} : avoidsY s = true ↔ ∀ c ∈ s.data, c ≠ 'y' := by
  simp [avoidsY]

/-- avoidsY distributes over append. -/
theorem avoidsY_append (s t : String) :
    avoidsY (s ++ t) = (avoidsY s && avoidsY t) := by
  simp [avoidsY, String.data_append]

/-- The decimal rendering of a natural number avoids y. -/
theorem avoidsY_toString_nat (n : Nat) : avoidsY (toString n) = true :=
  avoidsY_iff.mpr (natRepr_ne_y n)

/-- A joined nonempty list starts with its first part. -/
theorem joinNl_cons (s : String) (l : List String) :
    ∃ r, joinNl (s :: l) = s ++ r := by
  cases l with
  | nil => exact ⟨"", (String.append_empty s).symm⟩
  | cons a t =>
    refine ⟨"\n" ++ joinNl (a :: t), ?_⟩
    rw [joinNl, String.append_assoc]
    exact fun hh => List.noConfusion hh

/-- joinNl preserves avoidsY. -/
theorem avoidsY_joinNl (l : List String) (h : ∀ s ∈ l, avoidsY s = true) :
    avoidsY (joinNl l) = true := by
  induction l with
  | nil => decide
  | cons s rest ih =>
    cases rest with
    | nil => exact h s (List.mem_cons_self s [])
    | cons a t =>
      rw [joinNl, avoidsY_append, avoidsY_append]
      case x_1 => exact fun hh => List.noConfusion hh
      have h1 := h s (List.mem_cons_self s (a :: t))
      have h2 := ih (fun x hx => h x (List.mem_cons_of_mem s hx))
      rw [h1, h2]
      decide

/-- The gap token of any size avoids y. -/
theorem avoidsY_gapSizeToken (v : GapSize) : avoidsY (gapSizeToken v) = true := by
  unfold gapSizeToken
  split
  · decide
  · rw [avoidsY_append, avoidsY_append, avoidsY_toString_nat]
    decide

/-- Each declaration a side push can emit avoids y, provided the stem
and the side name do. -/
theorem avoidsY_sideDecl (pre side : String) (v : Option GapSize)
    (hp : avoidsY pre = true) (hs : avoidsY side = true) :
    ∀ s ∈ sideDecl pre side v, avoidsY s = true := by
  cases v with
  | none => intro s hmem; cases hmem
  | some w =>
    intro s hmem
    simp only [sideDecl, List.mem_singleton] at hmem
    subst hmem
    rw [avoidsY_append, avoidsY_append, avoidsY_append, avoidsY_append,
      avoidsY_append, hp, hs, avoidsY_gapSizeToken]
    decide

/-- Every declaration styleSpacing can push avoids y. -/
theorem avoidsY_styleSpacingList (ty : SpacingType) (d : Option SpacingDefinition) :
    ∀ s ∈ styleSpacingList ty d, avoidsY s = true := by
  cases d with
  | none => intro s hmem; cases hmem
  | some d =>
    intro s hmem
    have hp : avoidsY ty.toCss = true := by cases ty <;> decide
    simp only [styleSpacingList, List.mem_append] at hmem
    rcases hmem with ((h | h) | h) | h <;>
      exact avoidsY_sideDecl _ _ _ hp (by decide) s h

/-- The joined styleSpacing output avoids y. -/
theorem avoidsY_styleSpacing (ty : SpacingType) (d : Option SpacingDefinition) :
    avoidsY (styleSpacing ty d) = true :=
  avoidsY_joinNl _ (avoidsY_styleSpacingList ty d)

/-- Away from the sm tier, every declaration styleFlex emits avoids the
letter y (the align and justify blocks cannot fire there). -/
theorem avoidsY_styleFlexList (bp : Breakpoint) (p : FlexProps) (hbp : bp ≠ .sm) :
    ∀ s ∈ styleFlexList bp p, avoidsY s = true := by
  intro s hmem
  simp only [styleFlexList, List.mem_append] at hmem
  rcases hmem with ((((((h | h) | h) | h) | h) | h) | h)
  · unfold displayChunk at h
    rw [if_neg hbp] at h
    cases h
  · unfold directionChunk at h
    cases hv : flexValueAt bp p.direction with
    | none => rw [hv] at h; cases h
    | some dv =>
      rw [hv] at h
      replace h : s ∈ ["flex-direction: " ++ dv.toCss ++ ";"] := h
      rw [List.mem_singleton] at h
      subst h
      cases dv <;> decide
  · unfold alignChunk scalarAt at h
    rw [if_neg hbp] at h
    cases h
  · unfold justifyChunk scalarAt at h
    rw [if_neg hbp] at h
    cases h
  · unfold growChunk at h
    cases hv : flexValueAt bp p.grow with
    | none => rw [hv] at h; cases h
    | some g =>
      rw [hv] at h
      replace h : s ∈ ["flex-grow: " ++ toString g ++ ";", "flex-basis: 0;"] := h
      rcases List.mem_cons.mp h with h1 | h1
      · subst h1
        rw [avoidsY_append, avoidsY_append, avoidsY_toString_nat]
        decide
      · rw [List.mem_singleton] at h1
        subst h1
        decide
  · unfold gapChunk at h
    cases hv : flexValueAt bp p.gap with
    | none => rw [hv] at h; cases h
    | some g =>
      rw [hv] at h
      replace h : s ∈ ["gap: var(--gap-size-" ++ toString g.val ++ ");"] := h
      rw [List.mem_singleton] at h
      subst h
      rw [avoidsY_append, avoidsY_append, avoidsY_toString_nat]
      decide
  · unfold spacingChunk at h
    cases hv : spacingAt bp p with
    | none => rw [hv] at h; cases h
    | some d =>
      rw [hv] at h
      replace h : s ∈ (if styleSpacing (p.type.getD SpacingType.padding) (some d) = ""
        then [] else [styleSpacing (p.type.getD SpacingType.padding) (some d)]) := h
      split at h
      · cases h
      · rw [List.mem_singleton] at h
        subst h
        exact avoidsY_styleSpacing _ _

/-- Claim C6: the sm output always starts with the display declaration;
at md and lg no emitted declaration equals display: flex;, and in fact
the whole md and lg output strings avoid the letter y, so the substring
display: flex; (which contains a y) cannot occur in them at all. -/
theorem claim_C6_display_rule (p : FlexProps) :
    (∃ r, styleFlex .sm p = "display: flex;" ++ r) ∧
    ((styleFlexList .md p).all (fun s => s != "display: flex;") = true) ∧
    ((styleFlexList .lg p).all (fun s => s != "display: flex;") = true) ∧
    avoidsY (styleFlex .md p) = true ∧
    avoidsY (styleFlex .lg p) = true := by
  have hne : ∀ bp : Breakpoint, bp ≠ .sm →
      ((styleFlexList bp p).all (fun s => s != "display: flex;") = true) := by
    intro bp hbp
    rw [List.all_eq_true]
    intro s hs
    rw [bne_iff_ne]
    intro he
    have hy := avoidsY_styleFlexList bp p hbp s hs
    rw [he] at hy
    exact absurd hy (by decide)
  refine ⟨?_, hne .md (fun hx => Breakpoint.noConfusion hx),
    hne .lg (fun hx => Breakpoint.noConfusion hx),
    avoidsY_joinNl _ (avoidsY_styleFlexList .md p (fun hx => Breakpoint.noConfusion hx)),
    avoidsY_joinNl _ (avoidsY_styleFlexList .lg p (fun hx => Breakpoint.noConfusion hx))⟩
  have htail : ∃ tail, styleFlexList .sm p = "display: flex;" :: tail := ⟨_, rfl⟩
  obtain ⟨tail, ht⟩ := htail
  unfold styleFlex
  rw [ht]
  exact joinNl_cons _ _

/-- Claim C6 witness: the theorem applied at a concrete record. -/
theorem claim_C6_witness :
    (∃ r, styleFlex .sm ({ gap := some (.map { md := some 2 }) } : FlexProps) = "display: flex;" ++ r) ∧
    ((styleFlexList .md ({ gap := some (.map { md := some 2 }) } : FlexProps)).all (fun s => s != "display: flex;") = true) ∧
    ((styleFlexList .lg ({ gap := some (.map { md := some 2 }) } : FlexProps)).all (fun s => s != "display: flex;") = true) ∧
    avoidsY (styleFlex .md ({ gap := some (.map { md := some 2 }) } : FlexProps)) = true ∧
    avoidsY (styleFlex .lg ({ gap := some (.map { md := some 2 }) } : FlexProps)) = true :=
  claim_C6_display_rule { gap := some (.map { md := some 2 }) }

/-- A list entry found by index is a member. -/
theorem mem_of_getElemEq {α : Type} : ∀ (l : List α) (i : Nat) (a : α), l[i]? = some a → a ∈ l := by
  intro l
  induction l with
  | nil => intro i a h; rw [List.getElem?_nil] at h; cases h
  | cons b t ih =>
    intro i a h
    cases i with
    | zero =>
      rw [List.getElem?_cons_zero] at h
      have h2 := Option.some.inj h
      subst h2
      exact List.mem_cons_self b t
    | succ i =>
      rw [List.getElem?_cons_succ] at h
      exact List.mem_cons_of_mem b (ih i a h)

/-- No declaration of the list extends the flex-grow property head. -/
def NoGrowHead (l : List String) : Prop :=
  ∀ s ∈ l, ∀ r, s ≠ "flex-grow: " ++ r

/-- Every flex-grow declaration of the list is immediately followed by
the flex-basis reset. -/
def GrowPaired (l : List String) : Prop :=
  ∀ (i : Nat) (r : String), l[i]? = some ("flex-grow: " ++ r) →
    l[i + 1]? = some ("flex-basis: 0;")

/-- A string whose prefix of length n differs from the flex-grow head
cannot extend it. -/
theorem ne_growHead_of_take_ne (n : Nat) (hn : n ≤ ("flex-grow: ".data).length)
    (s : String) (h : s.data.take n ≠ ("flex-grow: ".data).take n) :
    ∀ r, s ≠ "flex-grow: " ++ r := by
  intro r heq
  exact h (by rw [heq, String.data_append, List.take_append_of_le_length hn])

/-- Pairing extends through a head declaration that is not a flex-grow. -/
theorem growPaired_cons (a : String) (l : List String)
    (ha : ∀ r, a ≠ "flex-grow: " ++ r) (hl : GrowPaired l) : GrowPaired (a :: l) := by
  intro i r h
  cases i with
  | zero =>
    rw [List.getElem?_cons_zero] at h
    exact absurd (Option.some.inj h) (ha r)
  | succ i =>
    rw [List.getElem?_cons_succ] at h
    rw [List.getElem?_cons_succ]
    exact hl i r h

/-- A list with no flex-grow declaration is vacuously paired. -/
theorem growPaired_of_noGrowHead (l : List String) (h : NoGrowHead l) : GrowPaired l := by
  induction l with
  | nil => intro i r hx; rw [List.getElem?_nil] at hx; cases hx
  | cons a t ih =>
    exact growPaired_cons a t (h a (List.mem_cons_self a t))
      (ih (fun s hs => h s (List.mem_cons_of_mem a hs)))

/-- NoGrowHead is closed under append. -/
theorem noGrowHead_append (l₁ l₂ : List String)
    (h₁ : NoGrowHead l₁) (h₂ : NoGrowHead l₂) : NoGrowHead (l₁ ++ l₂) := by
  intro s hs
  rcases List.mem_append.mp hs with h | h
  · exact h₁ s h
  · exact h₂ s h

/-- Pairing is preserved when a flex-grow-free block is prepended. -/
theorem growPaired_append (l₁ l₂ : List String)
    (h₁ : NoGrowHead l₁) (h₂ : GrowPaired l₂) : GrowPaired (l₁ ++ l₂) := by
  induction l₁ with
  | nil => exact h₂
  | cons a t ih =>
    exact growPaired_cons a (t ++ l₂) (h₁ a (List.mem_cons_self a t))
      (ih (fun s hs => h₁ s (List.mem_cons_of_mem a hs)))

/-- The grow pair itself is paired, in front of a flex-grow-free tail. -/
theorem growPaired_pair (g : Nat) (B : List String) (hB : NoGrowHead B) :
    GrowPaired (("flex-grow: " ++ toString g ++ ";") :: ("flex-basis: 0;") :: B) := by
  intro i r h
  cases i with
  | zero =>
    rw [List.getElem?_cons_succ, List.getElem?_cons_zero]
  | succ i =>
    cases i with
    | zero =>
      rw [List.getElem?_cons_succ, List.getElem?_cons_zero] at h
      exact absurd (Option.some.inj h) (ne_growHead_of_take_ne 11 (by decide) _ (by decide) r)
    | succ i =>
      rw [List.getElem?_cons_succ, List.getElem?_cons_succ] at h
      exact absurd rfl (hB _ (mem_of_getElemEq B i _ h) r)

/-- The display declaration never extends the flex-grow head. -/
theorem noGrowHead_displayChunk (bp : Breakpoint) : NoGrowHead (displayChunk bp) := by
  intro s hs
  unfold displayChunk at hs
  split at hs
  · rw [List.mem_singleton] at hs
    subst hs
    exact ne_growHead_of_take_ne 1 (by decide) _ (by decide)
  · cases hs

/-- A flex-direction declaration never extends the flex-grow head. -/
theorem noGrowHead_directionChunk (bp : Breakpoint) (p : FlexProps) :
    NoGrowHead (directionChunk bp p) := by
  intro s hs
  unfold directionChunk at hs
  cases hv : flexValueAt bp p.direction with
  | none => rw [hv] at hs; cases hs
  | some dv =>
    rw [hv] at hs
    replace hs : s ∈ ["flex-direction: " ++ dv.toCss ++ ";"] := hs
    rw [List.mem_singleton] at hs
    subst hs
    cases dv
    · exact ne_growHead_of_take_ne 11 (by decide) _ (by decide)
    · exact ne_growHead_of_take_ne 11 (by decide) _ (by decide)

/-- An align-items declaration never extends the flex-grow head. -/
theorem noGrowHead_alignChunk (bp : Breakpoint) (p : FlexProps) :
    NoGrowHead (alignChunk bp p) := by
  intro s hs
  unfold alignChunk at hs
  cases hv : scalarAt bp p.alignItems with
  | none => rw [hv] at hs; cases hs
  | some a =>
    rw [hv] at hs
    replace hs : s ∈ (if a = "" then [] else ["align-items: " ++ a ++ ";"]) := hs
    split at hs
    · cases hs
    · rw [List.mem_singleton] at hs
      subst hs
      refine ne_growHead_of_take_ne 1 (by decide) _ ?_
      intro hx
      have hq : (['a'] : List Char) = ['f'] := hx
      exact absurd hq (by decide)

/-- A justify-content declaration never extends the flex-grow head. -/
theorem noGrowHead_justifyChunk (bp : Breakpoint) (p : FlexProps) :
    NoGrowHead (justifyChunk bp p) := by
  intro s hs
  unfold justifyChunk at hs
  cases hv : scalarAt bp p.justifyContent with
  | none => rw [hv] at hs; cases hs
  | some j =>
    rw [hv] at hs
    replace hs : s ∈ (if j = "" then [] else ["justify-content: " ++ j ++ ";"]) := hs
    split at hs
    · cases hs
    · rw [List.mem_singleton] at hs
      subst hs
      refine ne_growHead_of_take_ne 1 (by decide) _ ?_
      intro hx
      have hq : (['j'] : List Char) = ['f'] := hx
      exact absurd hq (by decide)

/-- A gap declaration never extends the flex-grow head. -/
theorem noGrowHead_gapChunk (bp : Breakpoint) (p : FlexProps) :
    NoGrowHead (gapChunk bp p) := by
  intro s hs
  unfold gapChunk at hs
  cases hv : flexValueAt bp p.gap with
  | none => rw [hv] at hs; cases hs
  | some g =>
    rw [hv] at hs
    replace hs : s ∈ ["gap: var(--gap-size-" ++ toString g.val ++ ");"] := hs
    rw [List.mem_singleton] at hs
    subst hs
    refine ne_growHead_of_take_ne 1 (by decide) _ ?_
    intro hx
    have hq : (['g'] : List Char) = ['f'] := hx
    exact absurd hq (by decide)

/-- Every styleSpacing part starts with the padding or margin stem. -/
theorem mem_styleSpacingList_shape (ty : SpacingType) (d : Option SpacingDefinition) :
    ∀ x ∈ styleSpacingList ty d, ∃ u, x = ty.toCss ++ u := by
  cases d with
  | none => intro x hx; cases hx
  | some d =>
    intro x hx
    simp only [styleSpacingList, List.mem_append] at hx
    have key : ∀ (side : String) (v : Option GapSize),
        x ∈ sideDecl ty.toCss side v → ∃ u, x = ty.toCss ++ u := by
      intro side v hmem
      cases v with
      | none => cases hmem
      | some w =>
        simp only [sideDecl, List.mem_singleton] at hmem
        subst hmem
        refine ⟨"-" ++ side ++ ": " ++ gapSizeToken w ++ ";", ?_⟩
        simp [String.append_assoc]
    rcases hx with ((h | h) | h) | h <;> exact key _ _ h

/-- The joined styleSpacing output never extends the flex-grow head:
it is either empty or starts with p or m. -/
theorem styleSpacing_ne_growHead (ty : SpacingType) (d : Option SpacingDefinition) :
    ∀ r, styleSpacing ty d ≠ "flex-grow: " ++ r := by
  cases hls : styleSpacingList ty d with
  | nil =>
    unfold styleSpacing
    rw [hls]
    intro r
    refine ne_growHead_of_take_ne 1 (by decide) _ ?_ r
    intro hx
    have hq : ([] : List Char) = ['f'] := hx
    exact absurd hq (by decide)
  | cons x rest =>
    unfold styleSpacing
    rw [hls]
    obtain ⟨t, hts⟩ := joinNl_cons x rest
    rw [hts]
    have hx : x ∈ styleSpacingList ty d := by rw [hls]; exact List.mem_cons_self x rest
    obtain ⟨u, hu⟩ := mem_styleSpacingList_shape ty d x hx
    rw [hu, String.append_assoc]
    cases ty
    · intro r
      refine ne_growHead_of_take_ne 1 (by decide) _ ?_ r
      intro hq0
      have hq : (['p'] : List Char) = ['f'] := hq0
      exact absurd hq (by decide)
    · intro r
      refine ne_growHead_of_take_ne 1 (by decide) _ ?_ r
      intro hq0
      have hq : (['m'] : List Char) = ['f'] := hq0
      exact absurd hq (by decide)

/-- A spacing block entry never extends the flex-grow head. -/
theorem noGrowHead_spacingChunk (bp : Breakpoint) (p : FlexProps) :
    NoGrowHead (spacingChunk bp p) := by
  intro s hs
  unfold spacingChunk at hs
  cases hv : spacingAt bp p with
  | none => rw [hv] at hs; cases hs
  | some d =>
    rw [hv] at hs
    replace hs : s ∈ (if styleSpacing (p.type.getD SpacingType.padding) (some d) = ""
      then [] else [styleSpacing (p.type.getD SpacingType.padding) (some d)]) := hs
    split at hs
    · cases hs
    · rw [List.mem_singleton] at hs
      subst hs
      exact styleSpacing_ne_growHead _ _

/-- The four blocks preceding the grow block never extend the flex-grow
head. -/
theorem noGrowHead_beforeGrow (bp : Breakpoint) (p : FlexProps) :
    NoGrowHead (displayChunk bp ++ directionChunk bp p ++ alignChunk bp p ++ justifyChunk bp p) :=
  noGrowHead_append _ _
    (noGrowHead_append _ _
      (noGrowHead_append _ _ (noGrowHead_displayChunk bp) (noGrowHead_directionChunk bp p))
      (noGrowHead_alignChunk bp p))
    (noGrowHead_justifyChunk bp p)

/-- The two blocks following the grow block never extend the flex-grow
head. -/
theorem noGrowHead_afterGrow (bp : Breakpoint) (p : FlexProps) :
    NoGrowHead (gapChunk bp p ++ spacingChunk bp p) :=
  noGrowHead_append _ _ (noGrowHead_gapChunk bp p) (noGrowHead_spacingChunk bp p)

/-- Claim C7: whenever grow resolves at a tier (an explicit 0 included)
the declaration list contains flex-grow immediately followed by the
flex-basis reset, and a flex-grow declaration never occurs without the
reset right after it. -/
theorem claim_C7_grow_pairing (bp : Breakpoint) (p : FlexProps) :
    (∀ g, flexValueAt bp p.grow = some g →
      ∃ l₁ l₂, styleFlexList bp p =
        l₁ ++ ("flex-grow: " ++ toString g ++ ";") :: ("flex-basis: 0;") :: l₂) ∧
    GrowPaired (styleFlexList bp p) := by
  constructor
  · intro g hg
    refine ⟨displayChunk bp ++ directionChunk bp p ++ alignChunk bp p ++ justifyChunk bp p,
      gapChunk bp p ++ spacingChunk bp p, ?_⟩
    unfold styleFlexList growChunk
    rw [hg]
    simp [List.append_assoc]
  · cases hg : flexValueAt bp p.grow with
    | none =>
      have hgrown : NoGrowHead (growChunk bp p) := by
        intro s hs
        unfold growChunk at hs
        rw [hg] at hs
        cases hs
      refine growPaired_of_noGrowHead _ ?_
      unfold styleFlexList
      exact noGrowHead_append _ _
        (noGrowHead_append _ _
          (noGrowHead_append _ _ (noGrowHead_beforeGrow bp p) hgrown)
          (noGrowHead_gapChunk bp p))
        (noGrowHead_spacingChunk bp p)
    | some g =>
      have hsplit : styleFlexList bp p =
          (displayChunk bp ++ directionChunk bp p ++ alignChunk bp p ++ justifyChunk bp p) ++
          (("flex-grow: " ++ toString g ++ ";") :: ("flex-basis: 0;") ::
            (gapChunk bp p ++ spacingChunk bp p)) := by
        unfold styleFlexList growChunk
        rw [hg]
        simp [List.append_assoc]
      rw [hsplit]
      exact growPaired_append _ _ (noGrowHead_beforeGrow bp p)
        (growPaired_pair g _ (noGrowHead_afterGrow bp p))

/-- Claim C7 witness: the theorem applied at a record resolving grow at
md, with the resolution hypothesis discharged. -/
theorem claim_C7_witness :
    (∃ l₁ l₂, styleFlexList .md ({ grow := some (.map { md := some 2 }) } : FlexProps) =
      l₁ ++ ("flex-grow: " ++ toString 2 ++ ";") :: ("flex-basis: 0;") :: l₂) ∧
    GrowPaired (styleFlexList .md ({ grow := some (.map { md := some 2 }) } : FlexProps)) :=
  ⟨(claim_C7_grow_pairing .md { grow := some (.map { md := some 2 }) }).1 2 rfl,
   (claim_C7_grow_pairing .md { grow := some (.map { md := some 2 }) }).2⟩

/-- Claim C3 witness: the refinement part of the theorem applied at a
concrete kind and definition. -/
theorem claim_C3_witness :
    styleSpacingList .margin (some { all := some 1 }) =
      spacingSpecList .margin { all := some 1 } :=
  claim_C3_spacing_priority_order.1 .margin { all := some 1 }
